import Mathlib

/-!
Shallow embedding of `src/main.py` (daily-planhat-metrics-update) and
verification of the claims about it.

The program is a scheduled job: it downloads a daily usage CSV from a GCS
bucket, fetches a roster of companies from the Planhat API, computes two
metrics per company with `calculate_metrics`, and posts them back with
`update_planhat`, orchestrated by `pull_and_update`.

Modelling conventions:
  - pandas DataFrames become lists of rows; a `Total` cell is `Option ℚ`,
    with `none` standing for a value on which pd.to_numeric with the
    coerce policy yields NaN;
  - Python floats become exact rationals; Python round(x, 2) becomes
    round-half-to-even at two decimals over ℚ;
  - network and storage I/O outcomes become explicit parameters, and a
    Python exception that escapes a function becomes an explicit
    `raises` result;
  - the in-place mutation of the DataFrame by `calculate_metrics` is made
    explicit: the function returns the updated table next to its result.
-/

/-- ASCII whitespace, the characters Python str.strip removes from ASCII
text: space, tab, line feed, carriage return, vertical tab, form feed. -/
def isSpaceChar (c : Char) : Bool :=
  c.toNat = 32 || c.toNat = 9 || c.toNat = 10 || c.toNat = 13 ||
    c.toNat = 11 || c.toNat = 12

/-- Lowercase one ASCII character, as Python str.lower acts on ASCII. -/
def lowerChar (c : Char) : Char :=
  if 65 ≤ c.toNat ∧ c.toNat ≤ 90 then Char.ofNat (c.toNat + 32) else c

/-- Python str.strip(): drop leading and trailing whitespace. -/
def pyStrip (s : String) : String :=
  ⟨((s.data.dropWhile isSpaceChar).reverse.dropWhile isSpaceChar).reverse⟩

/-- Python str.lower() on ASCII text. -/
def pyLower (s : String) : String :=
  ⟨s.data.map lowerChar⟩

/-- The org-id normalization `str(x).strip().lower()` used at
src/main.py lines 94 and 97. -/
def normalizeId (s : String) : String := pyLower (pyStrip s)

/-- A calendar date as Python datetime exposes it: year, month (1-12) and
1-based day of month. -/
structure PDate where
  year : Nat
  month : Nat
  day : Nat
deriving DecidableEq, Repr

/-- Gregorian leap-year rule, as used by calendar.monthrange. -/
def isLeapYear (y : Nat) : Bool :=
  (y % 4 = 0 && !(y % 100 = 0)) || y % 400 = 0

/-- calendar.monthrange(y, m)[1]: the number of days in the month. -/
def daysInMonth (y m : Nat) : Nat :=
  if m = 2 then (if isLeapYear y then 29 else 28)
  else if m = 4 || m = 6 || m = 9 || m = 11 then 30
  else 31

/-- Round a rational to the nearest integer, ties to even, the rounding of
Python round on exactly representable values. -/
def roundHalfEven (q : ℚ) : ℤ :=
  let f : ℤ := ⌊q⌋
  if q - f < 1/2 then f
  else if q - f > 1/2 then f + 1
  else if f % 2 = 0 then f else f + 1

/-- Python round(x, 2): round to two decimal places. -/
def round2 (q : ℚ) : ℚ := (roundHalfEven (q * 100) : ℚ) / 100

/-- One row of the parsed usage CSV: the OrganizationID cell and the Total
cell. The Total cell is `some q` when it coerces to the number `q` and
`none` when numeric coercion fails on it. -/
structure Row where
  orgID : String
  total : Option ℚ
deriving DecidableEq, Repr

/-- The usage DataFrame. -/
abbrev Table := List Row

/-- pd.to_numeric with the coerce policy followed by fillna(0): a cell that
fails numeric coercion becomes 0, and is never dropped. -/
def coerceTotal : Option ℚ → ℚ
  | some q => q
  | none => 0

/-- The in-place column rewrite `calculate_metrics` performs on its table
argument (src/main.py lines 97 and 98): OrganizationID values are cast to
string, stripped and lowercased, and Total values are numerically coerced
with failures becoming 0. -/
def normalizeTable (df : Table) : Table :=
  df.map fun r => { orgID := normalizeId r.orgID, total := some (coerceTotal r.total) }

/-- calculate_metrics (src/main.py lines 89 to 113). Returns the rounded
(cumulative, forecasted) pair together with the table as the call leaves
it, since the Python function rewrites two columns of its argument in
place. -/
def calculate_metrics (df : Table) (org_ids : List String) (data_date : PDate) :
    (ℚ × ℚ) × Table :=
  let ids := org_ids.map normalizeId
  let df2 := normalizeTable df
  let matched := df2.filter fun r => ids.contains r.orgID
  let cumulative_total := (matched.map fun r => coerceTotal r.total).sum
  let days_passed := data_date.day
  let days_in_month := daysInMonth data_date.year data_date.month
  let average_daily_cpus :=
    if days_passed > 0 then cumulative_total / (days_passed : ℚ) else 0
  let forecasted_cpus := average_daily_cpus * (days_in_month : ℚ)
  ((round2 cumulative_total, round2 forecasted_cpus), df2)

/-- Specification-side sum: the Total values (failed coercions as 0) of the
rows whose normalized OrganizationID is among the normalized ids, summed
directly over the whole table. -/
def specSum (df : Table) (org_ids : List String) : ℚ :=
  (df.map fun r =>
    if (org_ids.map normalizeId).contains (normalizeId r.orgID)
    then coerceTotal r.total else 0).sum

lemma sum_filter_map {α : Type} (p : α → Bool) (g : α → ℚ) (l : List α) :
    ((l.filter p).map g).sum = (l.map fun a => if p a then g a else 0).sum := by
  induction l with
  | nil => rfl
  | cons a t ih =>
    by_cases h : p a
    · simp only [List.filter_cons, h, if_pos, List.map_cons, List.sum_cons, ih]
    · simp only [List.filter_cons, h, List.map_cons, List.sum_cons, ih, Bool.false_eq_true,
        if_false]
      rw [zero_add]

lemma filtered_sum_eq_specSum (df : Table) (ids : List String) :
    (((normalizeTable df).filter fun r => (ids.map normalizeId).contains r.orgID).map
        fun r => coerceTotal r.total).sum = specSum df ids := by
  rw [sum_filter_map]
  simp only [normalizeTable, List.map_map]
  rfl

lemma calculate_metrics_fst (df : Table) (ids : List String) (dd : PDate) :
    (calculate_metrics df ids dd).1 =
      (round2 (specSum df ids),
       round2 ((if dd.day > 0 then specSum df ids / (dd.day : ℚ) else 0) *
         (daysInMonth dd.year dd.month : ℚ))) := by
  simp only [calculate_metrics, filtered_sum_eq_specSum]

/-- C1: calculate_metrics returns (round(S, 2), round((S / d) * m, 2)), where S
sums the Total column (failed coercions as 0) over rows whose normalized
OrganizationID is in the normalized id set, d is the 1-based day of month of
the reference date and m the number of days in its month with leap years
accounted for; in particular Total values [100, non-numeric, 50] on day 10 of
a 30-day month give (150.0, 450.0), and one matching row with Total=300 at
reference date 2024-02-10 gives daysInMonth = 29 and forecasted = 870.0. -/
theorem C1_metrics_formula :
    (∀ (df : Table) (ids : List String) (dd : PDate), 1 ≤ dd.day →
      (calculate_metrics df ids dd).1 =
        (round2 (specSum df ids),
         round2 (specSum df ids / (dd.day : ℚ) * (daysInMonth dd.year dd.month : ℚ)))) ∧
    (calculate_metrics [⟨"orgX", some 100⟩, ⟨"orgX", none⟩, ⟨"orgX", some 50⟩]
        ["orgX"] ⟨2024, 9, 10⟩).1 = (150, 450) ∧
    daysInMonth 2024 9 = 30 ∧
    daysInMonth 2024 2 = 29 ∧
    (calculate_metrics [⟨"org1", some 300⟩] ["org1"] ⟨2024, 2, 10⟩).1 = (300, 870) := by
  refine ⟨fun df ids dd hd => ?_, ?_, by norm_num [daysInMonth, isLeapYear],
      by norm_num [daysInMonth, isLeapYear], ?_⟩
  · rw [calculate_metrics_fst, if_pos (by omega)]
  · have h : normalizeId "orgX" = "orgx" := by decide
    simp only [calculate_metrics, normalizeTable, List.map, h, coerceTotal, List.filter,
      List.contains, List.elem, daysInMonth, isLeapYear]
    norm_num [round2, roundHalfEven]
  · have h : normalizeId "org1" = "org1" := by decide
    simp only [calculate_metrics, normalizeTable, List.map, h, coerceTotal, List.filter,
      List.contains, List.elem, daysInMonth, isLeapYear]
    norm_num [round2, roundHalfEven]

/-- Witness for C1: the general formula applied at the concrete end-to-end
example (one row with Total=300, reference date 2024-02-10). -/
theorem C1_metrics_formula_witness :
    1 ≤ (PDate.mk 2024 2 10).day ∧
    (calculate_metrics [⟨"org1", some 300⟩] ["org1"] ⟨2024, 2, 10⟩).1 =
      (round2 (specSum [⟨"org1", some 300⟩] ["org1"]),
       round2 (specSum [⟨"org1", some 300⟩] ["org1"] / ((PDate.mk 2024 2 10).day : ℚ) *
         (daysInMonth 2024 2 : ℚ))) :=
  ⟨by norm_num, C1_metrics_formula.1 _ _ _ (by norm_num)⟩

lemma toNat_ofNat_valid (n : Nat) (h : n.isValidChar) : (Char.ofNat n).toNat = n := by
  simp [Char.ofNat, h, Char.toNat, Char.ofNatAux, UInt32.toNat, UInt32.ofNatCore,
    BitVec.toNat_ofNatLt]

lemma toNat_lowerChar (c : Char) :
    (lowerChar c).toNat =
      if 65 ≤ c.toNat ∧ c.toNat ≤ 90 then c.toNat + 32 else c.toNat := by
  unfold lowerChar
  by_cases h : 65 ≤ c.toNat ∧ c.toNat ≤ 90
  · rw [if_pos h, if_pos h]
    exact toNat_ofNat_valid _ (Or.inl (by omega))
  · rw [if_neg h, if_neg h]

lemma lowerChar_eq_self (d : Char) (h : ¬(65 ≤ d.toNat ∧ d.toNat ≤ 90)) :
    lowerChar d = d := by
  unfold lowerChar
  rw [if_neg h]

lemma lowerChar_idem (c : Char) : lowerChar (lowerChar c) = lowerChar c := by
  by_cases h : 65 ≤ c.toNat ∧ c.toNat ≤ 90
  · have h1 : (lowerChar c).toNat = c.toNat + 32 := by rw [toNat_lowerChar, if_pos h]
    exact lowerChar_eq_self (lowerChar c) (by rw [h1]; omega)
  · rw [lowerChar_eq_self c h]
    exact lowerChar_eq_self c h

lemma isSpaceChar_lowerChar (c : Char) : isSpaceChar (lowerChar c) = isSpaceChar c := by
  by_cases h : 65 ≤ c.toNat ∧ c.toNat ≤ 90
  · have h1 : (lowerChar c).toNat = c.toNat + 32 := by rw [toNat_lowerChar, if_pos h]
    have hl : isSpaceChar (lowerChar c) = false := by
      unfold isSpaceChar
      rw [h1]
      simp only [Bool.or_eq_false_iff, decide_eq_false_iff_not]
      omega
    have hr : isSpaceChar c = false := by
      unfold isSpaceChar
      simp only [Bool.or_eq_false_iff, decide_eq_false_iff_not]
      omega
    rw [hl, hr]
  · rw [lowerChar_eq_self c h]

lemma head?_dropWhile {α : Type} (p : α → Bool) (l : List α) (a : α)
    (h : (l.dropWhile p).head? = some a) : p a = false := by
  induction l with
  | nil => simp [List.dropWhile] at h
  | cons b t ih =>
    cases hb : p b with
    | true =>
      rw [List.dropWhile_cons, if_pos hb] at h
      exact ih h
    | false =>
      rw [List.dropWhile_cons, hb] at h
      simp at h
      rw [← h]
      exact hb

lemma getLast?_dropWhile {α : Type} (p : α → Bool) (l : List α) (h : l.dropWhile p ≠ []) :
    (l.dropWhile p).getLast? = l.getLast? := by
  induction l with
  | nil => simp at h
  | cons b t ih =>
    cases hb : p b with
    | true =>
      rw [List.dropWhile_cons, if_pos hb] at h ⊢
      have ht : t.dropWhile p ≠ [] := h
      rw [ih ht]
      cases t with
      | nil => simp [List.dropWhile] at ht
      | cons c u => simp [List.getLast?_cons_cons]
    | false =>
      rw [List.dropWhile_cons, if_neg (by simp [hb])]

lemma dropWhile_eq_self_of_head? {α : Type} (p : α → Bool) (l : List α)
    (h : ∀ a, l.head? = some a → p a = false) : l.dropWhile p = l := by
  cases l with
  | nil => rfl
  | cons b t =>
    rw [List.dropWhile_cons, if_neg]
    simp [h b (by simp)]

/-- The list-level body of pyStrip. -/
def stripL {α : Type} (p : α → Bool) (l : List α) : List α :=
  ((l.dropWhile p).reverse.dropWhile p).reverse

lemma stripL_idem {α : Type} (p : α → Bool) (l : List α) :
    stripL p (stripL p l) = stripL p l := by
  by_cases hu : l.dropWhile p = []
  · have h0 : stripL p l = [] := by
      unfold stripL
      rw [hu]
      rfl
    rw [h0]
    rfl
  by_cases hv : (l.dropWhile p).reverse.dropWhile p = []
  · have h0 : stripL p l = [] := by
      unfold stripL
      rw [hv]
      rfl
    rw [h0]
    rfl
  have hA : (stripL p l).dropWhile p = stripL p l := by
    apply dropWhile_eq_self_of_head?
    intro a ha
    unfold stripL at ha
    rw [List.head?_reverse] at ha
    rw [getLast?_dropWhile _ _ hv, List.getLast?_reverse] at ha
    exact head?_dropWhile p l a ha
  calc stripL p (stripL p l)
      = (((stripL p l).dropWhile p).reverse.dropWhile p).reverse := rfl
    _ = ((stripL p l).reverse.dropWhile p).reverse := by rw [hA]
    _ = ((((l.dropWhile p).reverse.dropWhile p).reverse.reverse).dropWhile p).reverse := rfl
    _ = (((l.dropWhile p).reverse.dropWhile p).dropWhile p).reverse := by
          rw [List.reverse_reverse]
    _ = ((l.dropWhile p).reverse.dropWhile p).reverse := by rw [List.dropWhile_idempotent]
    _ = stripL p l := rfl

lemma stripL_map_lowerChar (l : List Char) :
    stripL isSpaceChar (l.map lowerChar) = (stripL isSpaceChar l).map lowerChar := by
  have hp : (isSpaceChar ∘ lowerChar) = isSpaceChar := funext isSpaceChar_lowerChar
  unfold stripL
  rw [List.dropWhile_map, hp, List.reverse_map, List.dropWhile_map, hp, List.reverse_map]

lemma normalizeId_data (s : String) :
    (normalizeId s).data = (stripL isSpaceChar s.data).map lowerChar := rfl

lemma normalizeId_idem (s : String) : normalizeId (normalizeId s) = normalizeId s := by
  have h : (normalizeId (normalizeId s)).data = (normalizeId s).data := by
    rw [normalizeId_data, normalizeId_data, stripL_map_lowerChar, stripL_idem,
      List.map_map]
    congr 1
    funext c
    exact lowerChar_idem c
  cases hn : normalizeId (normalizeId s) with
  | mk d1 =>
    cases hm : normalizeId s with
    | mk d2 =>
      rw [hn, hm] at h
      exact congrArg String.mk h

lemma normalizeTable_idem (df : Table) :
    normalizeTable (normalizeTable df) = normalizeTable df := by
  unfold normalizeTable
  rw [List.map_map]
  congr 1
  funext r
  simp [Function.comp, coerceTotal, normalizeId_idem]

/-- C8 counterexample: calculate_metrics does not leave its table argument
unchanged; a row id with surrounding whitespace and uppercase is rewritten
in place. -/
theorem C8_counterexample :
    (calculate_metrics [⟨" OrgA ", some 3⟩] ["x"] ⟨2024, 1, 5⟩).2 ≠
      [⟨" OrgA ", some 3⟩] := by
  decide

/-- C8 amended: calculate_metrics is not pure with respect to its table
argument: it rewrites the OrganizationID column to its stripped, lowercased
form and the Total column to its coerced numeric form in place. This
mutation is idempotent, so every later call on the mutated table — in
particular each per-organization iteration of the orchestrator, which reads
the shared df_current — returns exactly what the call on the original table
returns, and the computed results write nothing else back. -/
theorem C8_table_mutation :
    ∀ (df : Table) (ids ids2 : List String) (dd dd2 : PDate),
      (calculate_metrics df ids dd).2 = normalizeTable df ∧
      calculate_metrics (calculate_metrics df ids dd).2 ids2 dd2 =
        calculate_metrics df ids2 dd2 := by
  intro df ids ids2 dd dd2
  refine ⟨rfl, ?_⟩
  show calculate_metrics (normalizeTable df) ids2 dd2 = calculate_metrics df ids2 dd2
  simp only [calculate_metrics, normalizeTable_idem]

lemma specSum_congr (df df' : Table) (ids ids' : List String)
    (hids : ids.map normalizeId = ids'.map normalizeId)
    (hdf : df.map (fun r => (normalizeId r.orgID, r.total)) =
           df'.map (fun r => (normalizeId r.orgID, r.total))) :
    specSum df ids = specSum df' ids' := by
  unfold specSum
  rw [hids]
  have key : ∀ (l : Table),
      (l.map fun r => if (ids'.map normalizeId).contains (normalizeId r.orgID)
        then coerceTotal r.total else 0) =
      (l.map fun r => (normalizeId r.orgID, r.total)).map
        (fun x => if (ids'.map normalizeId).contains x.1 then coerceTotal x.2 else 0) := by
    intro l
    rw [List.map_map]
    rfl
  rw [key df, key df', hdf]

lemma calculate_metrics_norm_congr (df df' : Table) (ids ids' : List String) (dd : PDate)
    (hids : ids.map normalizeId = ids'.map normalizeId)
    (hdf : df.map (fun r => (normalizeId r.orgID, r.total)) =
           df'.map (fun r => (normalizeId r.orgID, r.total))) :
    (calculate_metrics df ids dd).1 = (calculate_metrics df' ids' dd).1 := by
  rw [calculate_metrics_fst, calculate_metrics_fst,
    specSum_congr df df' ids ids' hids hdf]

/-- C4: the metric pair returned by calculate_metrics is unchanged when any
id in the set or any OrganizationID value in the table is altered only in
letter case or leading/trailing whitespace, stated as: any two inputs with
the same stripped-lowercased ids (and the same Total cells) give equal
results. -/
theorem C4_normalization_invariance (df df' : Table) (ids ids' : List String) (dd : PDate)
    (hids : ids.map normalizeId = ids'.map normalizeId)
    (hdf : df.map (fun r => (normalizeId r.orgID, r.total)) =
           df'.map (fun r => (normalizeId r.orgID, r.total))) :
    (calculate_metrics df ids dd).1 = (calculate_metrics df' ids' dd).1 :=
  calculate_metrics_norm_congr df df' ids ids' dd hids hdf

/-- Witness for C4 at the concrete ids of the spec: " OrgA " and "ORGA"
normalize alike, the row id "orga" matches both, and the results agree. -/
theorem C4_normalization_invariance_witness :
    [" OrgA "].map normalizeId = ["ORGA"].map normalizeId ∧
    ([⟨"orga", some 7⟩] : Table).map (fun r => (normalizeId r.orgID, r.total)) =
      ([⟨" ORGA ", some 7⟩] : Table).map (fun r => (normalizeId r.orgID, r.total)) ∧
    (calculate_metrics [⟨"orga", some 7⟩] [" OrgA "] ⟨2024, 5, 2⟩).1 =
      (calculate_metrics [⟨" ORGA ", some 7⟩] ["ORGA"] ⟨2024, 5, 2⟩).1 :=
  ⟨by decide, by decide,
    C4_normalization_invariance _ _ _ _ _ (by decide) (by decide)⟩

/-- One row of the companies DataFrame built by fetch_planhat_companies:
the Planhat ID, the nested custom Org ID and the company name; each maps to
`none` when the corresponding field is missing in the API response. -/
structure Company where
  planhatId : Option String
  orgId : Option String
  companyName : Option String
deriving DecidableEq, Repr

/-- The static org_id_sets constant (src/main.py lines 189 to 192): groups
of org ids that must be aggregated as one logical organization. Python set
literals are modelled as lists; only membership in them is used. -/
def org_id_sets : List (List String) :=
  [["7ba2041d-b88f-4b67-a63a-64e78962b014", "a29883b2-997e-4b44-8bf5-a0a95bbdf639"],
   ["551cf481-0042-4076-a5a1-a78e23193c84", "c116cabe-9d57-46c3-b37b-a93e8f52967e"]]

/-- The matching-set search of src/main.py lines 204 to 208: the first
alias set containing the org id by exact string membership (no stripping,
no lowercasing), if any. -/
def aliasLookup (o : String) : Option (List String) :=
  org_id_sets.find? fun s => s.contains o

/-- Python truthiness of an optional string: None and the empty string are
falsy, every other string is truthy. -/
def truthyOpt : Option String → Bool
  | none => false
  | some s => !(s == "")

/-- The payload of one update_planhat call: who is published and with which
rounded metric values. -/
structure PublishCall where
  planhatId : Option String
  orgId : String
  cumulative : ℚ
  forecasted : ℚ
  companyName : Option String
deriving DecidableEq, Repr

/-- Outcome of one HTTP POST to the analytics endpoint. -/
inductive HttpOutcome
  | ok
  | httpError
  | transportError
deriving DecidableEq, Repr

/-- The Python exception classes the program can surface. -/
inductive PyException
  | requestException
  | typeError
  | valueError
deriving DecidableEq, Repr

/-- The body of the try block of update_planhat: requests.post followed by
raise_for_status. A non-2xx response raises HTTPError and a transport
failure raises a connection error; both are requests.RequestException. -/
def attemptPost : HttpOutcome → Except PyException Unit
  | .ok => .ok ()
  | .httpError => .error .requestException
  | .transportError => .error .requestException

/-- update_planhat (src/main.py lines 115 to 154): any RequestException
from the POST is caught and logged, and the function returns normally; any
other exception would propagate. -/
def update_planhat (o : HttpOutcome) : Except PyException Unit :=
  match attemptPost o with
  | .ok _ => .ok ()
  | .error e => if e = .requestException then .ok () else .error e

/-- One iteration of the roster loop of pull_and_update (src/main.py lines
195 to 228): a company whose Org ID is falsy is skipped with a warning;
otherwise the effective id set is the matching alias set, or the singleton
of its own id, and calculate_metrics runs against the shared table, which
it mutates. -/
def processCompany (df : Table) (dd : PDate) (c : Company) :
    Option PublishCall × Table :=
  match c.orgId with
  | none => (none, df)
  | some o =>
    if o = "" then (none, df)
    else
      let ids := match aliasLookup o with
        | some s => s
        | none => [o]
      let r := calculate_metrics df ids dd
      (some ⟨c.planhatId, o, r.1.1, r.1.2, c.companyName⟩, r.2)

/-- The roster loop, threading the shared DataFrame and consuming one
publish outcome per published company; an exception escaping update_planhat
would abort the whole run (none of the modelled outcomes makes it do so). -/
def processCompanies (dd : PDate) (pubOut : Nat → HttpOutcome) :
    Table → Nat → List Company → Except PyException (List PublishCall × Table)
  | df, _, [] => .ok ([], df)
  | df, i, c :: cs =>
    match processCompany df dd c with
    | (none, df2) => processCompanies dd pubOut df2 i cs
    | (some pc, df2) =>
      match update_planhat (pubOut i) with
      | .error e => .error e
      | .ok _ =>
        match processCompanies dd pubOut df2 (i + 1) cs with
        | .error e => .error e
        | .ok (l, dfEnd) => .ok (pc :: l, dfEnd)

/-- Char-list test: the second list occurs at the start of the first. -/
def hasPre : List Char → List Char → Bool
  | _, [] => true
  | [], _ :: _ => false
  | a :: as, b :: bs => a == b && hasPre as bs

/-- Char-list test: the second list occurs somewhere inside the first. -/
def containsSeq : List Char → List Char → Bool
  | [], needle => needle.isEmpty
  | a :: as, needle => hasPre (a :: as) needle || containsSeq as needle

/-- Python `sub in s` on strings. -/
def pyContains (s sub : String) : Bool := containsSeq s.data sub.data

/-- Python s.endswith(t). -/
def pyEndsWith (s t : String) : Bool := hasPre s.data.reverse t.data.reverse

/-- One object of the bucket listing. `parsed` is the result of
download_as_string plus pd.read_csv on it: `some` table on success, `none`
when downloading or parsing raises (the generic handler then returns
None). -/
structure Blob where
  name : String
  parsed : Option Table
deriving DecidableEq, Repr

/-- Outcome of building the storage client and listing the bucket. -/
inductive GcsListing
  | ok (blobs : List Blob)
  | notFound
  | forbidden
  | apiError
  | otherError
deriving DecidableEq, Repr

/-- The blob filter of src/main.py line 31: the name contains the date
string and ends with ".csv". -/
def blobMatches (target_date : String) (b : Blob) : Bool :=
  pyContains b.name target_date && pyEndsWith b.name ".csv"

/-- download_and_process_csv_for_date (src/main.py lines 19 to 49): iterate
the listing, return the parsed CSV of the first matching object; no match
gives None, and each failure of the provider (bucket missing, forbidden,
API error, anything else) is caught, logged and collapsed to None. -/
def download_and_process_csv_for_date (listing : GcsListing) (target_date : String) :
    Option Table :=
  match listing with
  | .ok blobs =>
    match blobs.find? (blobMatches target_date) with
    | some b => b.parsed
    | none => none
  | .notFound => none
  | .forbidden => none
  | .apiError => none
  | .otherError => none

/-- Outcome of json.loads on the credential string: a parse error raises,
otherwise the parsed value is truthy or falsy. -/
inductive JsonLoadResult
  | raises
  | val (truthy : Bool)
deriving DecidableEq, Repr

/-- The four environment variables pull_and_update reads. -/
structure PhEnv where
  gcpServiceAccountJson : Option String
  planhatApiToken : Option String
  planhatTenantToken : Option String
  billingBucketName : Option String
deriving DecidableEq, Repr

/-- How one invocation of the entry point ends: raising an uncaught
exception, or returning a (message, status) pair. -/
inductive PullOutcome
  | raises (e : PyException)
  | returns (msg : String) (code : Nat)
deriving DecidableEq, Repr

/-- pull_and_update (src/main.py lines 156 to 231). Parameters stand for
the environment, the behavior of json.loads on the credential string, the
target-date string, the reference date, the bucket listing, the roster
fetch result and the per-publish HTTP outcomes. Returns how the call ends
together with the publish calls of a completed run. json.loads(None) raises
TypeError before the configuration check; the configuration check tests
only the bucket name, the parsed credential value and the API token. -/
def rosterStage (dataDate : PDate) (pubOut : Nat → HttpOutcome) (df : Table)
    (roster : Option (List Company)) : PullOutcome × List PublishCall :=
  match roster with
  | none => (.returns "Failed to fetch companies" 500, [])
  | some companies =>
    match processCompanies dataDate pubOut df 0 companies with
    | .error e => (.raises e, [])
    | .ok (calls, _) => (.returns "Success" 200, calls)

/-- The tail of pull_and_update from line 177 on: abort with 500 when the
CSV download came back absent, else abort with 500 when the roster fetch
came back absent, else loop over the roster and end with ("Success", 200).
`rosterStage` is the part from line 183 on. -/
def csvStage (dataDate : PDate) (pubOut : Nat → HttpOutcome) (csv : Option Table)
    (roster : Option (List Company)) : PullOutcome × List PublishCall :=
  match csv with
  | none => (.returns "CSV data not available" 500, [])
  | some df => rosterStage dataDate pubOut df roster

def pull_and_update (env : PhEnv) (jsonLoads : String → JsonLoadResult)
    (execDateStr : String) (dataDate : PDate) (gcs : GcsListing)
    (roster : Option (List Company)) (pubOut : Nat → HttpOutcome) :
    PullOutcome × List PublishCall :=
  match env.gcpServiceAccountJson with
  | none => (.raises .typeError, [])
  | some sa =>
    match jsonLoads sa with
    | .raises => (.raises .valueError, [])
    | .val saTruthy =>
      if !truthyOpt env.billingBucketName || !saTruthy ||
          !truthyOpt env.planhatApiToken then
        (.returns "Env var configuration error" 500, [])
      else
        csvStage dataDate pubOut
          (download_and_process_csv_for_date gcs execDateStr) roster

/-- C10: with the GCP_SERVICE_ACCOUNT_JSON variable unset, pull_and_update
raises (json.loads applied to the absent value raises TypeError) before the
configuration check ever runs, so it never returns the documented
(message, 500) configuration-error pair for that input. -/
theorem C10_missing_credential_raises :
    ∀ (t tt bn : Option String) (jl : String → JsonLoadResult) (eds : String)
      (dd : PDate) (gcs : GcsListing) (roster : Option (List Company))
      (pubOut : Nat → HttpOutcome),
      pull_and_update ⟨none, t, tt, bn⟩ jl eds dd gcs roster pubOut =
        (.raises .typeError, []) ∧
      ∀ (msg : String) (code : Nat) (calls : List PublishCall),
        pull_and_update ⟨none, t, tt, bn⟩ jl eds dd gcs roster pubOut ≠
          (.returns msg code, calls) := by
  intro t tt bn jl eds dd gcs roster pubOut
  refine ⟨rfl, fun msg code calls h => ?_⟩
  rw [show pull_and_update ⟨none, t, tt, bn⟩ jl eds dd gcs roster pubOut =
    (.raises .typeError, []) from rfl] at h
  simp at h

/-- C6: download_and_process_csv_for_date returns the absent value both when
no object name contains the date string and ends in ".csv", and on every
failure outcome of the provider (bucket missing, forbidden, API error, any
other error); in the embedding it is a total function, so it never raises
to its caller, and all these causes are indistinguishable from the result. -/
theorem C6_download_absent_results :
    (∀ d, download_and_process_csv_for_date .notFound d = none) ∧
    (∀ d, download_and_process_csv_for_date .forbidden d = none) ∧
    (∀ d, download_and_process_csv_for_date .apiError d = none) ∧
    (∀ d, download_and_process_csv_for_date .otherError d = none) ∧
    (∀ (blobs : List Blob) (d : String),
      (∀ b ∈ blobs, blobMatches d b = false) →
      download_and_process_csv_for_date (.ok blobs) d = none) := by
  refine ⟨fun d => rfl, fun d => rfl, fun d => rfl, fun d => rfl, fun blobs d h => ?_⟩
  have hf : blobs.find? (blobMatches d) = none :=
    List.find?_eq_none.mpr fun x hx => by simp [h x hx]
  show (match blobs.find? (blobMatches d) with
    | some b => b.parsed
    | none => none) = none
  rw [hf]

/-- Witness for C6: a listing whose only object matches neither the date nor
the extension yields the absent result. -/
theorem C6_download_absent_results_witness :
    (∀ b ∈ [Blob.mk "other.txt" (some [])], blobMatches "2024-01-01" b = false) ∧
    download_and_process_csv_for_date (.ok [Blob.mk "other.txt" (some [])])
      "2024-01-01" = none :=
  ⟨by decide, C6_download_absent_results.2.2.2.2 _ _ (by decide)⟩

/-- C7 counterexample: with the tenant-identifier variable unset but every
other configuration input present, pull_and_update does not return a
configuration-error 500: the run completes with ("Success", 200), because
the configuration check never tests PLANHAT_TENANT_TOKEN. -/
theorem C7_counterexample :
    (PhEnv.mk (some "sa") (some "token") none (some "bucket")).planhatTenantToken =
      none ∧
    pull_and_update (PhEnv.mk (some "sa") (some "token") none (some "bucket"))
        (fun _ => .val true) "2024-01-01" ⟨2023, 12, 31⟩
        (.ok [Blob.mk "report-2024-01-01.csv" (some [])]) (some [])
        (fun _ => .ok) =
      (.returns "Success" 200, []) := by
  exact ⟨rfl, by decide⟩

/-- C7 amended: the fatal configuration check covers only the bucket name,
the API token and the truthiness of the parsed credential value: if any of
those is absent, empty or falsy (with the credential variable present and
parseable), pull_and_update returns ("Env var configuration error", 500)
before any fetch, with no publish call, for every storage listing, roster
result and publish behavior. The tenant identifier is read but never
checked, and an absent credential variable raises instead of returning. -/
theorem C7_config_check (env : PhEnv) (jl : String → JsonLoadResult) (sa : String)
    (b : Bool) (hsa : env.gcpServiceAccountJson = some sa) (hjl : jl sa = .val b)
    (hfail : truthyOpt env.billingBucketName = false ∨ b = false ∨
      truthyOpt env.planhatApiToken = false) :
    ∀ (eds : String) (dd : PDate) (gcs : GcsListing)
      (roster : Option (List Company)) (pubOut : Nat → HttpOutcome),
      pull_and_update env jl eds dd gcs roster pubOut =
        (.returns "Env var configuration error" 500, []) := by
  intro eds dd gcs roster pubOut
  simp only [pull_and_update, hsa, hjl]
  rcases hfail with h | h | h <;> simp [h]

/-- Witness for C7 amended: a concrete environment with the API token
missing returns the configuration error. -/
theorem C7_config_check_witness :
    (PhEnv.mk (some "sa") none (some "t") (some "bucket")).gcpServiceAccountJson =
      some "sa" ∧
    truthyOpt (PhEnv.mk (some "sa") none (some "t") (some "bucket")).planhatApiToken =
      false ∧
    pull_and_update (PhEnv.mk (some "sa") none (some "t") (some "bucket"))
        (fun _ => .val true) "d" ⟨2024, 1, 1⟩ .notFound none (fun _ => .ok) =
      (.returns "Env var configuration error" 500, []) :=
  ⟨rfl, rfl,
    C7_config_check (PhEnv.mk (some "sa") none (some "t") (some "bucket"))
      (fun _ => .val true) "sa" true rfl rfl (Or.inr (Or.inr rfl)) "d"
      ⟨2024, 1, 1⟩ .notFound none (fun _ => .ok)⟩

/-- C2: for a roster company whose org id is a member of an alias set, the
loop computes metrics over ALL ids of that set: the published cumulative
value is round2 of the Total sum over rows matching any id in the set; a
company whose id is in no alias set gets the singleton of its own id. -/
theorem C2_alias_set_aggregation :
    ∀ (df : Table) (dd : PDate) (c : Company) (o : String),
      c.orgId = some o → o ≠ "" →
      ((∀ S, aliasLookup o = some S →
        (processCompany df dd c).1.map (fun pc => pc.cumulative) =
          some (round2 (specSum df S))) ∧
       (aliasLookup o = none →
        (processCompany df dd c).1.map (fun pc => pc.cumulative) =
          some (round2 (specSum df [o])))) := by
  intro df dd c o hc ho
  constructor
  · intro S hS
    simp only [processCompany, hc, if_neg ho, hS]
    simp [calculate_metrics_fst]
  · intro hS
    simp only [processCompany, hc, if_neg ho, hS]
    simp [calculate_metrics_fst]

/-- Witness for C2: the first Provenir id selects its alias set, and the
published cumulative aggregates rows of both Provenir ids. -/
theorem C2_alias_set_aggregation_witness :
    (Company.mk (some "p1") (some "7ba2041d-b88f-4b67-a63a-64e78962b014")
        (some "Provenir")).orgId = some "7ba2041d-b88f-4b67-a63a-64e78962b014" ∧
    "7ba2041d-b88f-4b67-a63a-64e78962b014" ≠ "" ∧
    aliasLookup "7ba2041d-b88f-4b67-a63a-64e78962b014" =
      some ["7ba2041d-b88f-4b67-a63a-64e78962b014",
        "a29883b2-997e-4b44-8bf5-a0a95bbdf639"] ∧
    (processCompany
        [⟨"7ba2041d-b88f-4b67-a63a-64e78962b014", some 2⟩,
         ⟨"a29883b2-997e-4b44-8bf5-a0a95bbdf639", some 3⟩]
        ⟨2024, 3, 5⟩
        (Company.mk (some "p1") (some "7ba2041d-b88f-4b67-a63a-64e78962b014")
          (some "Provenir"))).1.map (fun pc => pc.cumulative) =
      some (round2 (specSum
        [⟨"7ba2041d-b88f-4b67-a63a-64e78962b014", some 2⟩,
         ⟨"a29883b2-997e-4b44-8bf5-a0a95bbdf639", some 3⟩]
        ["7ba2041d-b88f-4b67-a63a-64e78962b014",
         "a29883b2-997e-4b44-8bf5-a0a95bbdf639"])) :=
  ⟨rfl, by decide, by decide,
    (C2_alias_set_aggregation _ ⟨2024, 3, 5⟩ _ _ rfl (by decide)).1 _ (by decide)⟩

/-- C3 counterexample: the two spellings differ only in letter case (they
normalize identically), yet the orchestrator selects the Provenir alias set
for the lowercase spelling and no alias set for the uppercase one, so org-id
comparison is not case-insensitive everywhere. -/
theorem C3_counterexample :
    normalizeId "7BA2041D-B88F-4B67-A63A-64E78962B014" =
      normalizeId "7ba2041d-b88f-4b67-a63a-64e78962b014" ∧
    aliasLookup "7BA2041D-B88F-4B67-A63A-64E78962B014" = none ∧
    aliasLookup "7ba2041d-b88f-4b67-a63a-64e78962b014" =
      some ["7ba2041d-b88f-4b67-a63a-64e78962b014",
        "a29883b2-997e-4b44-8bf5-a0a95bbdf639"] :=
  ⟨by decide, by decide, by decide⟩

/-- C3 amended: row filtering in the calculator is case-insensitive and
whitespace-trimmed — changing only case or surrounding whitespace of ids or
of table OrganizationID values never changes the metric pair — but the
membership test of the orchestrator against the static alias sets is an exact
string comparison: there are ids differing only in letter case for which a
different alias set (or none) is selected. -/
theorem C3_normalization_scope :
    (∀ (df df' : Table) (ids ids' : List String) (dd : PDate),
      ids.map normalizeId = ids'.map normalizeId →
      df.map (fun r => (normalizeId r.orgID, r.total)) =
        df'.map (fun r => (normalizeId r.orgID, r.total)) →
      (calculate_metrics df ids dd).1 = (calculate_metrics df' ids' dd).1) ∧
    (∃ a b : String, normalizeId a = normalizeId b ∧ aliasLookup a ≠ aliasLookup b) := by
  refine ⟨fun df df' ids ids' dd hids hdf =>
    calculate_metrics_norm_congr df df' ids ids' dd hids hdf, ?_⟩
  exact ⟨"7BA2041D-B88F-4B67-A63A-64E78962B014",
    "7ba2041d-b88f-4b67-a63a-64e78962b014", by decide, by decide⟩

/-- Witness for C3 amended: the invariance half applied at concrete inputs
differing only in case and whitespace. -/
theorem C3_normalization_scope_witness :
    ["X "].map normalizeId = ["x"].map normalizeId ∧
    ([⟨"x", some 1⟩] : Table).map (fun r => (normalizeId r.orgID, r.total)) =
      ([⟨"X", some 1⟩] : Table).map (fun r => (normalizeId r.orgID, r.total)) ∧
    (calculate_metrics [⟨"x", some 1⟩] ["X "] ⟨2024, 7, 3⟩).1 =
      (calculate_metrics [⟨"X", some 1⟩] ["x"] ⟨2024, 7, 3⟩).1 :=
  ⟨by decide, by decide,
    C3_normalization_scope.1 _ _ _ _ ⟨2024, 7, 3⟩ (by decide) (by decide)⟩

lemma update_planhat_ok (o : HttpOutcome) : update_planhat o = .ok () := by
  cases o <;> rfl

lemma processCompany_skip (df : Table) (dd : PDate) (c : Company)
    (hc : truthyOpt c.orgId = false) : processCompany df dd c = (none, df) := by
  cases hco : c.orgId with
  | none =>
    unfold processCompany
    rw [hco]
  | some o =>
    have ho : o = "" := by
      rw [hco] at hc
      unfold truthyOpt at hc
      rcases eq_or_ne o "" with h | h
      · exact h
      · simp [h] at hc
    unfold processCompany
    rw [hco]
    simp [ho]

lemma processCompanies_cons (dd : PDate) (pubOut : Nat → HttpOutcome) (df : Table)
    (i : Nat) (c : Company) (cs : List Company) :
    processCompanies dd pubOut df i (c :: cs) =
      (match processCompany df dd c with
      | (none, df2) => processCompanies dd pubOut df2 i cs
      | (some pc, df2) =>
        match update_planhat (pubOut i) with
        | .error e => .error e
        | .ok _ =>
          match processCompanies dd pubOut df2 (i + 1) cs with
          | .error e => .error e
          | .ok (l, dfEnd) => .ok (pc :: l, dfEnd)) := rfl

lemma processCompanies_cons_of_skip (dd : PDate) (pubOut : Nat → HttpOutcome)
    (df df2 : Table) (i : Nat) (c : Company) (cs : List Company)
    (h : processCompany df dd c = (none, df2)) :
    processCompanies dd pubOut df i (c :: cs) = processCompanies dd pubOut df2 i cs := by
  rw [processCompanies_cons, h]

lemma processCompanies_cons_of_pub (dd : PDate) (pubOut : Nat → HttpOutcome)
    (df df2 : Table) (i : Nat) (c : Company) (cs : List Company) (pc : PublishCall)
    (h : processCompany df dd c = (some pc, df2)) :
    processCompanies dd pubOut df i (c :: cs) =
      (match processCompanies dd pubOut df2 (i + 1) cs with
      | .error e => .error e
      | .ok (l, dfEnd) => .ok (pc :: l, dfEnd)) := by
  rw [processCompanies_cons, h, update_planhat_ok]

lemma processCompanies_skip_middle (dd : PDate) (pubOut : Nat → HttpOutcome)
    (c : Company) (hc : truthyOpt c.orgId = false) :
    ∀ (cs1 : List Company) (df : Table) (i : Nat) (cs2 : List Company),
      processCompanies dd pubOut df i (cs1 ++ c :: cs2) =
        processCompanies dd pubOut df i (cs1 ++ cs2) := by
  intro cs1
  induction cs1 with
  | nil =>
    intro df i cs2
    simp only [List.nil_append]
    rw [processCompanies_cons_of_skip dd pubOut df df i c cs2
      (processCompany_skip df dd c hc)]
  | cons a t ih =>
    intro df i cs2
    simp only [List.cons_append]
    rcases hpa : processCompany df dd a with ⟨oc, df2⟩
    cases oc with
    | none =>
      rw [processCompanies_cons_of_skip dd pubOut df df2 i a _ hpa,
        processCompanies_cons_of_skip dd pubOut df df2 i a _ hpa]
      exact ih df2 i cs2
    | some pc =>
      rw [processCompanies_cons_of_pub dd pubOut df df2 i a _ pc hpa,
        processCompanies_cons_of_pub dd pubOut df df2 i a _ pc hpa,
        ih df2 (i + 1) cs2]

lemma rosterStage_none (dd : PDate) (pubOut : Nat → HttpOutcome) (df : Table) :
    rosterStage dd pubOut df none = (.returns "Failed to fetch companies" 500, []) := rfl

lemma rosterStage_some (dd : PDate) (pubOut : Nat → HttpOutcome) (df : Table)
    (cos : List Company) :
    rosterStage dd pubOut df (some cos) =
      (match processCompanies dd pubOut df 0 cos with
      | .error e => (.raises e, [])
      | .ok (calls, _) => (.returns "Success" 200, calls)) := rfl

lemma csvStage_none (dd : PDate) (pubOut : Nat → HttpOutcome)
    (roster : Option (List Company)) :
    csvStage dd pubOut none roster = (.returns "CSV data not available" 500, []) := rfl

lemma csvStage_some (dd : PDate) (pubOut : Nat → HttpOutcome) (df : Table)
    (roster : Option (List Company)) :
    csvStage dd pubOut (some df) roster = rosterStage dd pubOut df roster := rfl

lemma pull_and_update_roster_congr (env : PhEnv) (jl : String → JsonLoadResult)
    (eds : String) (dd : PDate) (gcs : GcsListing) (pubOut : Nat → HttpOutcome)
    (cos1 cos2 : List Company)
    (h : ∀ df i, processCompanies dd pubOut df i cos1 =
      processCompanies dd pubOut df i cos2) :
    pull_and_update env jl eds dd gcs (some cos1) pubOut =
      pull_and_update env jl eds dd gcs (some cos2) pubOut := by
  cases hsa : env.gcpServiceAccountJson with
  | none => simp only [pull_and_update, hsa]
  | some sa =>
    cases hjl : jl sa with
    | raises => simp only [pull_and_update, hsa, hjl]
    | val b =>
      simp only [pull_and_update, hsa, hjl]
      by_cases hcfg : (!truthyOpt env.billingBucketName || !b ||
          !truthyOpt env.planhatApiToken) = true
      · rw [if_pos hcfg, if_pos hcfg]
      · rw [if_neg hcfg, if_neg hcfg]
        cases hdl : download_and_process_csv_for_date gcs eds with
        | none => rw [csvStage_none, csvStage_none]
        | some df => rw [csvStage_some, csvStage_some, rosterStage_some,
            rosterStage_some, h df 0]

/-- C9: a roster entry with a null or empty org id is skipped with a
warning: no metrics are computed and no publish call is made for it (the
iteration produces no call and leaves the shared table untouched), and
removing the entry changes neither how the remaining entries are processed nor
the overall result of pull_and_update. -/
theorem C9_empty_org_skipped (c : Company) (hc : truthyOpt c.orgId = false) :
    (∀ (df : Table) (dd : PDate), processCompany df dd c = (none, df)) ∧
    (∀ (dd : PDate) (pubOut : Nat → HttpOutcome) (cs1 : List Company) (df : Table)
       (i : Nat) (cs2 : List Company),
      processCompanies dd pubOut df i (cs1 ++ c :: cs2) =
        processCompanies dd pubOut df i (cs1 ++ cs2)) ∧
    (∀ (env : PhEnv) (jl : String → JsonLoadResult) (eds : String) (dd : PDate)
       (gcs : GcsListing) (cs1 cs2 : List Company) (pubOut : Nat → HttpOutcome),
      pull_and_update env jl eds dd gcs (some (cs1 ++ c :: cs2)) pubOut =
        pull_and_update env jl eds dd gcs (some (cs1 ++ cs2)) pubOut) := by
  refine ⟨fun df dd => processCompany_skip df dd c hc,
    fun dd pubOut cs1 df i cs2 =>
      processCompanies_skip_middle dd pubOut c hc cs1 df i cs2,
    fun env jl eds dd gcs cs1 cs2 pubOut => ?_⟩
  exact pull_and_update_roster_congr env jl eds dd gcs pubOut _ _
    (fun df i => processCompanies_skip_middle dd pubOut c hc cs1 df i cs2)

/-- Witness for C9: a company without an org id, inserted between two
companies that have ids, changes nothing about the run. -/
theorem C9_empty_org_skipped_witness :
    truthyOpt (Company.mk (some "p0") none (some "NoOrg")).orgId = false ∧
    processCompany [⟨"a", some 1⟩] ⟨2024, 4, 2⟩
        (Company.mk (some "p0") none (some "NoOrg")) = (none, [⟨"a", some 1⟩]) ∧
    pull_and_update (PhEnv.mk (some "sa") (some "tok") (some "tt") (some "bkt"))
        (fun _ => .val true) "2024-04-02" ⟨2024, 4, 1⟩
        (.ok [Blob.mk "2024-04-02.csv" (some [⟨"a", some 1⟩])])
        (some ([Company.mk (some "p1") (some "a") (some "A")] ++
          (Company.mk (some "p0") none (some "NoOrg")) ::
          [Company.mk (some "p2") (some "b") (some "B")]))
        (fun _ => .ok) =
      pull_and_update (PhEnv.mk (some "sa") (some "tok") (some "tt") (some "bkt"))
        (fun _ => .val true) "2024-04-02" ⟨2024, 4, 1⟩
        (.ok [Blob.mk "2024-04-02.csv" (some [⟨"a", some 1⟩])])
        (some ([Company.mk (some "p1") (some "a") (some "A")] ++
          [Company.mk (some "p2") (some "b") (some "B")]))
        (fun _ => .ok) := by
  refine ⟨rfl, ?_, ?_⟩
  · exact (C9_empty_org_skipped (Company.mk (some "p0") none (some "NoOrg")) rfl).1
      [⟨"a", some 1⟩] ⟨2024, 4, 2⟩
  · exact (C9_empty_org_skipped (Company.mk (some "p0") none (some "NoOrg")) rfl).2.2
      (PhEnv.mk (some "sa") (some "tok") (some "tt") (some "bkt")) (fun _ => .val true)
      "2024-04-02" ⟨2024, 4, 1⟩
      (.ok [Blob.mk "2024-04-02.csv" (some [⟨"a", some 1⟩])])
      [Company.mk (some "p1") (some "a") (some "A")]
      [Company.mk (some "p2") (some "b") (some "B")] (fun _ => .ok)

lemma processCompanies_ok (dd : PDate) (pubOut : Nat → HttpOutcome) :
    ∀ (cs : List Company) (df : Table) (i : Nat),
      ∃ l t, processCompanies dd pubOut df i cs = .ok (l, t) := by
  intro cs
  induction cs with
  | nil => exact fun df i => ⟨[], df, rfl⟩
  | cons c t ih =>
    intro df i
    rcases hpc : processCompany df dd c with ⟨oc, df2⟩
    cases oc with
    | none =>
      rw [processCompanies_cons_of_skip dd pubOut df df2 i c t hpc]
      exact ih df2 i
    | some pc =>
      rw [processCompanies_cons_of_pub dd pubOut df df2 i c t pc hpc]
      obtain ⟨l0, t0, h⟩ := ih df2 (i + 1)
      rw [h]
      exact ⟨pc :: l0, t0, rfl⟩

/-- C5: with the credential variable present and parseable, pull_and_update
returns status 500 exactly when the configuration check fails or one of the
two upstream fetches is absent; a failed roster fetch (with configuration
and CSV fine) returns exactly ("Failed to fetch companies", 500) with no
per-organization work; and when configuration and both fetches succeed it
returns ("Success", 200) regardless of the publish outcomes, since
update_planhat swallows every request error. -/
theorem C5_status_policy (env : PhEnv) (jl : String → JsonLoadResult) (eds : String)
    (dd : PDate) (gcs : GcsListing) (roster : Option (List Company))
    (pubOut : Nat → HttpOutcome) (sa : String) (b : Bool)
    (hsa : env.gcpServiceAccountJson = some sa) (hjl : jl sa = .val b) :
    ((∃ msg, (pull_and_update env jl eds dd gcs roster pubOut).1 = .returns msg 500) ↔
      (truthyOpt env.billingBucketName = false ∨ b = false ∨
        truthyOpt env.planhatApiToken = false ∨
        download_and_process_csv_for_date gcs eds = none ∨ roster = none)) ∧
    ((truthyOpt env.billingBucketName = true ∧ b = true ∧
        truthyOpt env.planhatApiToken = true ∧
        download_and_process_csv_for_date gcs eds ≠ none ∧ roster = none) →
      pull_and_update env jl eds dd gcs roster pubOut =
        (.returns "Failed to fetch companies" 500, [])) ∧
    ((truthyOpt env.billingBucketName = true ∧ b = true ∧
        truthyOpt env.planhatApiToken = true ∧
        download_and_process_csv_for_date gcs eds ≠ none ∧ roster ≠ none) →
      (pull_and_update env jl eds dd gcs roster pubOut).1 = .returns "Success" 200) := by
  by_cases hcfg : (!truthyOpt env.billingBucketName || !b ||
      !truthyOpt env.planhatApiToken) = true
  · have hpu : pull_and_update env jl eds dd gcs roster pubOut =
        (.returns "Env var configuration error" 500, []) := by
      simp only [pull_and_update, hsa, hjl]
      rw [if_pos hcfg]
    have hdis : truthyOpt env.billingBucketName = false ∨ b = false ∨
        truthyOpt env.planhatApiToken = false := by
      simp only [Bool.or_eq_true, Bool.not_eq_true'] at hcfg
      tauto
    rw [hpu]
    refine ⟨⟨fun _ => ?_, fun _ => ⟨"Env var configuration error", rfl⟩⟩,
      fun hcon => ?_, fun hcon => ?_⟩
    · exact hdis.imp id (fun h2 => h2.imp id Or.inl)
    · obtain ⟨h1, h2, h3, _, _⟩ := hcon
      rcases hdis with h | h | h <;> simp_all
    · obtain ⟨h1, h2, h3, _, _⟩ := hcon
      rcases hdis with h | h | h <;> simp_all
  · have hall : truthyOpt env.billingBucketName = true ∧ b = true ∧
        truthyOpt env.planhatApiToken = true := by
      cases hb1 : truthyOpt env.billingBucketName <;> cases hb2 : b <;>
        cases hb3 : truthyOpt env.planhatApiToken <;> simp_all
    obtain ⟨hb1, hb2, hb3⟩ := hall
    cases hdl : download_and_process_csv_for_date gcs eds with
    | none =>
      have hpu : pull_and_update env jl eds dd gcs roster pubOut =
          (.returns "CSV data not available" 500, []) := by
        simp only [pull_and_update, hsa, hjl]
        rw [if_neg hcfg, hdl, csvStage_none]
      rw [hpu]
      refine ⟨⟨fun _ => Or.inr (Or.inr (Or.inr (Or.inl rfl))),
        fun _ => ⟨"CSV data not available", rfl⟩⟩,
        fun hcon => absurd rfl hcon.2.2.2.1, fun hcon => absurd rfl hcon.2.2.2.1⟩
    | some df =>
      cases roster with
      | none =>
        have hpu : pull_and_update env jl eds dd gcs none pubOut =
            (.returns "Failed to fetch companies" 500, []) := by
          simp only [pull_and_update, hsa, hjl]
          rw [if_neg hcfg, hdl, csvStage_some, rosterStage_none]
        rw [hpu]
        refine ⟨⟨fun _ => Or.inr (Or.inr (Or.inr (Or.inr rfl))),
          fun _ => ⟨"Failed to fetch companies", rfl⟩⟩,
          fun _ => rfl, fun hcon => absurd rfl hcon.2.2.2.2⟩
      | some cos =>
        obtain ⟨l, t0, hpr⟩ := processCompanies_ok dd pubOut cos df 0
        have hpu : pull_and_update env jl eds dd gcs (some cos) pubOut =
            (.returns "Success" 200, l) := by
          simp only [pull_and_update, hsa, hjl]
          rw [if_neg hcfg, hdl, csvStage_some, rosterStage_some, hpr]
        rw [hpu]
        refine ⟨⟨fun hex => ?_, fun hr => ?_⟩, fun hcon => ?_, fun _ => rfl⟩
        · obtain ⟨msg, hm⟩ := hex
          simp at hm
        · rcases hr with h | h | h | h | h <;> simp_all
        · exact Option.noConfusion hcon.2.2.2.2

/-- Witness for C5: a concrete run with sound configuration and a matching
CSV object whose roster fetch failed returns exactly
("Failed to fetch companies", 500) without per-organization work. -/
theorem C5_status_policy_witness :
    (PhEnv.mk (some "sa") (some "tok") (some "tt") (some "bkt")).gcpServiceAccountJson =
      some "sa" ∧
    pull_and_update (PhEnv.mk (some "sa") (some "tok") (some "tt") (some "bkt"))
        (fun _ => .val true) "2024-04-02" ⟨2024, 4, 1⟩
        (.ok [Blob.mk "2024-04-02.csv" (some [⟨"a", some 1⟩])]) none (fun _ => .ok) =
      (.returns "Failed to fetch companies" 500, []) :=
  ⟨rfl,
    (C5_status_policy (PhEnv.mk (some "sa") (some "tok") (some "tt") (some "bkt"))
      (fun _ => .val true) "2024-04-02" ⟨2024, 4, 1⟩
      (.ok [Blob.mk "2024-04-02.csv" (some [⟨"a", some 1⟩])]) none (fun _ => .ok)
      "sa" true rfl rfl).2.1 ⟨rfl, rfl, rfl, by decide, rfl⟩⟩

/-- Witness for C10: a concrete environment with the credential variable
unset makes the run raise, and in particular it does not return the
configuration-error pair. -/
theorem C10_missing_credential_raises_witness :
    pull_and_update ⟨none, some "tok", some "tt", some "bkt"⟩ (fun _ => .val true)
        "d" ⟨2024, 1, 1⟩ .notFound none (fun _ => .ok) =
      (.raises .typeError, []) ∧
    pull_and_update ⟨none, some "tok", some "tt", some "bkt"⟩ (fun _ => .val true)
        "d" ⟨2024, 1, 1⟩ .notFound none (fun _ => .ok) ≠
      (.returns "Env var configuration error" 500, []) :=
  ⟨(C10_missing_credential_raises (some "tok") (some "tt") (some "bkt")
      (fun _ => .val true) "d" ⟨2024, 1, 1⟩ .notFound none (fun _ => .ok)).1,
   (C10_missing_credential_raises (some "tok") (some "tt") (some "bkt")
      (fun _ => .val true) "d" ⟨2024, 1, 1⟩ .notFound none (fun _ => .ok)).2
      "Env var configuration error" 500 []⟩
